import Mathlib

/-!
# Verification of the MinUI video presentation pipeline

Shallow embedding of the frame queue (`workspace/all/common/frame_queue.c`),
the graphics backend registry (`workspace/all/common/gfx_backend.c`) and the
direct-framebuffer backend (`workspace/all/common/gfx_backend_fbdev.c`),
together with proofs of the specified properties.

Modelling conventions:
* The C code is sequential under one mutex; every mutex-protected operation is
  embedded as a pure function from queue state (plus explicit inputs such as
  the current `gettimeofday` reading) to queue state.
* `uint64_t` counters are `Nat` reduced modulo `2^64` at every update, exactly
  as C unsigned arithmetic wraps.
* Condition-variable waits are driven by an explicit trace of wait outcomes
  (`timedOut` for `pthread_cond_timedwait` returning `ETIMEDOUT`, `wokeUp`
  for a signalled or spurious wakeup); the loop around the wait re-checks the
  predicate exactly as the C loop does.
* Pointers that the C code only checks for `NULL` are modelled with `Option`.
-/

namespace MinUI

/-- `2^64`, the modulus of C `uint64_t` arithmetic. -/
def U64 : Nat := 2 ^ 64

/-- Wrapping `uint64_t` addition (`atomic_fetch_add` on a 64-bit counter). -/
def add64 (a b : Nat) : Nat := (a + b) % U64

/-- Wrapping `uint64_t` subtraction (`a - b` on `uint64_t` operands). -/
def sub64 (a b : Nat) : Nat := (a % U64 + (U64 - b % U64)) % U64

/-! ## Frame queue (`frame_queue.c`) -/

/-- `frame_state_t`: the four-state lifecycle of a frame slot. -/
inductive FrameState
  | FREE
  | WRITING
  | READY
  | RENDERING
deriving DecidableEq, Repr

/-- `frame_format_t` from `frame_queue.h`. -/
inductive FrameFormat
  | RGB565
  | BGR565
  | XRGB8888
  | ARGB8888
deriving DecidableEq, Repr

/-- `frame_format_bpp` from `frame_queue.h`. -/
def frame_format_bpp : FrameFormat → Int
  | .RGB565 => 2
  | .BGR565 => 2
  | .XRGB8888 => 4
  | .ARGB8888 => 4

/-- `frame_format_pitch` from `frame_queue.h`. -/
def frame_format_pitch (width : Int) (format : FrameFormat) : Int :=
  width * frame_format_bpp format

/-- One `frame_buffer_t` slot: its state and the timestamp stored in
`info.timestamp_us` by `frame_queue_acquire_write`.  The pixel `data` pointer
and the constant `info` fields (width/height/pitch/format, fixed at creation)
are not needed by any claim and are omitted. -/
structure FrameBuffer where
  state : FrameState
  timestamp_us : Nat
deriving DecidableEq, Repr

instance : Inhabited FrameBuffer := ⟨⟨FrameState.FREE, 0⟩⟩

/-- `struct frame_queue`: the mutable state of one queue.  `frames_queued` is
a C `int` (modelled as `Int`); the 64-bit counters are `Nat` kept below
`2^64` by `add64`. -/
structure FrameQueue where
  capacity : Nat
  width : Int
  height : Int
  pitch : Int
  format : FrameFormat
  frames : List FrameBuffer
  write_idx : Nat
  read_idx : Nat
  shutdown : Bool
  frames_queued : Int
  frames_submitted : Nat
  frames_dropped : Nat
  frames_rendered : Nat
  total_latency_us : Nat
  start_time_us : Nat
deriving Repr

/-- `FRAME_INVALID` from `frame_queue.h`. -/
def FRAME_INVALID : Int := -1

/-- `frame_queue_create`.  `now` is the `get_time_us()` reading taken during
creation; allocation failures (`calloc`/`malloc` returning `NULL`) are
environment failures outside the model, so only the parameter-validation
failure is represented. -/
def frame_queue_create (width height : Int) (format : FrameFormat)
    (capacity : Int) (now : Nat) : Option FrameQueue :=
  if width ≤ 0 ∨ height ≤ 0 ∨ capacity < 2 then
    none
  else
    some
      { capacity := capacity.toNat
        width := width
        height := height
        pitch := frame_format_pitch width format
        format := format
        frames := List.replicate capacity.toNat ⟨FrameState.FREE, 0⟩
        write_idx := 0
        read_idx := 0
        shutdown := false
        frames_queued := 0
        frames_submitted := 0
        frames_dropped := 0
        frames_rendered := 0
        total_latency_us := 0
        start_time_us := now }

/-- `frame_queue_shutdown`: sets the shutdown flag (the condition-variable
broadcasts carry no state). -/
def frame_queue_shutdown (q : FrameQueue) : FrameQueue :=
  { q with shutdown := true }

/-- The scan loop of `frame_queue_acquire_write`: for `i` rising while `fuel`
counts the remaining iterations (initially `capacity`), probe slot
`(idx + i) % capacity` and return the first index whose state is `FREE`. -/
def findFreeAux (frames : List FrameBuffer) (cap idx : Nat) :
    Nat → Nat → Option Nat
  | _, 0 => none
  | i, fuel + 1 =>
    let check_idx := (idx + i) % cap
    if (frames.getD check_idx default).state = FrameState.FREE then
      some check_idx
    else
      findFreeAux frames cap idx (i + 1) fuel

/-- `frame_queue_acquire_write`.  Returns the handle (`FRAME_INVALID` on
refusal) together with the updated queue. -/
def frame_queue_acquire_write (q : FrameQueue) (now : Nat) :
    Int × FrameQueue :=
  if q.shutdown then
    (FRAME_INVALID, q)
  else
    match findFreeAux q.frames q.capacity q.write_idx 0 q.capacity with
    | some ci =>
      let ts := sub64 now q.start_time_us
      ((ci : Int),
        { q with
            frames := q.frames.set ci ⟨FrameState.WRITING, ts⟩ })
    | none =>
      (FRAME_INVALID, { q with frames_dropped := add64 q.frames_dropped 1 })

/-- `frame_queue_submit`. -/
def frame_queue_submit (q : FrameQueue) (handle : Int) : FrameQueue :=
  if handle < 0 ∨ (q.capacity : Int) ≤ handle then
    q
  else
    let h := handle.toNat
    let slot := q.frames.getD h default
    if slot.state = FrameState.WRITING then
      { q with
          frames := q.frames.set h ⟨FrameState.READY, slot.timestamp_us⟩
          frames_queued := q.frames_queued + 1
          frames_submitted := add64 q.frames_submitted 1
          write_idx := (h + 1) % q.capacity }
    else
      q

/-- One outcome of a condition-variable wait inside
`frame_queue_acquire_read`:  `timedOut` is `pthread_cond_timedwait`
returning `ETIMEDOUT`, `wokeUp` a signalled or spurious wakeup. -/
inductive WaitOutcome
  | timedOut
  | wokeUp
deriving DecidableEq, Repr

/-- One pass of the checks at the top of the `while (!shutdown)` loop of
`frame_queue_acquire_read`: `some result` when the call returns without
waiting on the condition variable, `none` when it must wait. -/
def readCheck (timeout_ms : Int) (q : FrameQueue) :
    Option (Option Int × FrameQueue) :=
  if q.shutdown then
    some (some FRAME_INVALID, q)
  else
    let idx := q.read_idx
    let slot := q.frames.getD idx default
    if slot.state = FrameState.READY then
      some (some (idx : Int),
        { q with
            frames := q.frames.set idx ⟨FrameState.RENDERING, slot.timestamp_us⟩
            frames_queued := q.frames_queued - 1 })
    else if timeout_ms > 0 ∨ timeout_ms < 0 then
      none
    else
      some (some FRAME_INVALID, q)

/-- The `while (!shutdown)` loop of `frame_queue_acquire_read`, driven by
the trace `waits` of wait outcomes.  The result handle is `none` when the
trace is exhausted while the call is still blocked in a wait (the call has
not returned); otherwise `some` of the value the C function returns.  Queue
state is threaded unchanged through waits, as no other thread runs while the
sequential model holds the mutex. -/
def frame_queue_acquire_read_aux (timeout_ms : Int) (q : FrameQueue) :
    List WaitOutcome → Option Int × FrameQueue
  | [] => (readCheck timeout_ms q).getD (none, q)
  | w :: rest =>
    (readCheck timeout_ms q).getD
      (if 0 < timeout_ms then
        match w with
        | WaitOutcome.timedOut => (some FRAME_INVALID, q)
        | WaitOutcome.wokeUp => frame_queue_acquire_read_aux timeout_ms q rest
      else
        frame_queue_acquire_read_aux timeout_ms q rest)

/-- `frame_queue_acquire_read`. -/
def frame_queue_acquire_read (q : FrameQueue) (timeout_ms : Int)
    (waits : List WaitOutcome) : Option Int × FrameQueue :=
  frame_queue_acquire_read_aux timeout_ms q waits

/-- `frame_queue_release`.  `now` is the `get_time_us()` reading taken while
computing the latency. -/
def frame_queue_release (q : FrameQueue) (handle : Int) (now : Nat) :
    FrameQueue :=
  if handle < 0 ∨ (q.capacity : Int) ≤ handle then
    q
  else
    let h := handle.toNat
    let slot := q.frames.getD h default
    if slot.state = FrameState.RENDERING then
      let nowRel := sub64 now q.start_time_us
      let latency := sub64 nowRel slot.timestamp_us
      { q with
          total_latency_us := add64 q.total_latency_us latency
          frames_rendered := add64 q.frames_rendered 1
          frames := q.frames.set h ⟨FrameState.FREE, slot.timestamp_us⟩
          read_idx := (h + 1) % q.capacity }
    else
      q

/-- The three outputs of `frame_queue_get_stats`. -/
structure FrameQueueStats where
  frames_queued : Int
  frames_dropped : Nat
  avg_latency_us : Nat
deriving DecidableEq, Repr

/-- `frame_queue_get_stats`. -/
def frame_queue_get_stats (q : FrameQueue) : FrameQueueStats :=
  { frames_queued := q.frames_queued
    frames_dropped := q.frames_dropped
    avg_latency_us :=
      if q.frames_rendered > 0 then q.total_latency_us / q.frames_rendered
      else 0 }

/-- `frame_queue_reset_stats`.  `now` is the fresh `get_time_us()` reading. -/
def frame_queue_reset_stats (q : FrameQueue) (now : Nat) : FrameQueue :=
  { q with
      frames_submitted := 0
      frames_dropped := 0
      frames_rendered := 0
      total_latency_us := 0
      start_time_us := now }

/-! ### Operation traces over a frame queue -/

/-- One API call on a frame queue, with the external inputs (clock readings,
wait-outcome traces) it consumes. -/
inductive QueueOp
  | acquireWrite (now : Nat)
  | submit (handle : Int)
  | acquireRead (timeout_ms : Int) (waits : List WaitOutcome)
  | release (handle : Int) (now : Nat)
  | shutdownOp
  | resetStats (now : Nat)
deriving Repr

/-- Apply one operation to the queue, discarding the returned handle. -/
def runOp (q : FrameQueue) : QueueOp → FrameQueue
  | .acquireWrite now => (frame_queue_acquire_write q now).2
  | .submit handle => frame_queue_submit q handle
  | .acquireRead timeout_ms waits => (frame_queue_acquire_read q timeout_ms waits).2
  | .release handle now => frame_queue_release q handle now
  | .shutdownOp => frame_queue_shutdown q
  | .resetStats now => frame_queue_reset_stats q now

/-- Apply a list of operations from left to right. -/
def runOps (q : FrameQueue) (ops : List QueueOp) : FrameQueue :=
  ops.foldl runOp q

/-- One producer iteration: `frame_queue_acquire_write` at clock reading
`now` immediately followed by `frame_queue_submit` of the returned
handle. -/
def pairStep (q : FrameQueue) (now : Nat) : FrameQueue :=
  frame_queue_submit (frame_queue_acquire_write q now).2
    (frame_queue_acquire_write q now).1

/-- A sequence of acquire-write/submit pairs at the given clock readings. -/
def runPairs (q : FrameQueue) (times : List Nat) : FrameQueue :=
  times.foldl pairStep q

/-- The latency value a `frame_queue_release` call records, as a
zero-or-one element list: the `uint64_t` difference between the release
time (relative to queue start) and the slot's acquire-write timestamp,
emitted exactly when the release takes effect. -/
def releaseLatency (q : FrameQueue) (handle : Int) (now : Nat) : List Nat :=
  if handle < 0 ∨ (q.capacity : Int) ≤ handle then
    []
  else
    let slot := q.frames.getD handle.toNat default
    if slot.state = FrameState.RENDERING then
      [sub64 (sub64 now q.start_time_us) slot.timestamp_us]
    else
      []

/-- Run a trace while keeping a ghost log of the latencies recorded by
every effective release since the most recent statistics reset. -/
def runWithLog (q : FrameQueue) (log : List Nat) :
    List QueueOp → FrameQueue × List Nat
  | [] => (q, log)
  | op :: ops =>
    let log' :=
      match op with
      | .resetStats _ => []
      | .release handle now => log ++ releaseLatency q handle now
      | _ => log
    runWithLog (runOp q op) log' ops

/-! ## Graphics backend registry (`gfx_backend.c`) -/

/-- `gfx_pixel_format_t` from `gfx_backend.h`. -/
inductive GfxPixelFormat
  | RGB565
  | BGR565
  | XRGB8888
  | ARGB8888
deriving DecidableEq, Repr

/-- `gfx_scaling_mode_t` from `gfx_backend.h`. -/
inductive GfxScalingMode
  | NEAREST
  | LINEAR
  | INTEGER
  | ASPECT
  | FULLSCREEN
deriving DecidableEq, Repr

/-- A backend context handle (`gfx_backend_context_t*`), abstracted to an
identifier. -/
abbrev GfxContext : Type := Nat

/-- `struct gfx_backend`: the name pointer (`none` = `NULL`), the
capability mask, the `init` function pointer together with its behaviour
(`none` = `NULL` pointer; the function returns `none` when the C `init`
returns `NULL`), and presence flags for the remaining function pointers. -/
structure GfxBackend where
  name : Option String
  capabilities : Nat
  init : Option (Int → Int → GfxPixelFormat → Option GfxContext)
  quit : Bool
  present : Bool
  set_scaling : Bool
  set_vsync : Bool
  supports_vsync : Bool
  clear : Bool
  get_framebuffer : Bool
  set_rotation : Bool

/-- `MAX_BACKENDS` from `gfx_backend.c`. -/
def MAX_BACKENDS : Nat := 8

/-- The static `gfx_registry`. -/
structure GfxRegistry where
  backends : List GfxBackend
  active : Option GfxBackend
  context : Option GfxContext

/-- The zero-initialised registry. -/
def gfx_registry_empty : GfxRegistry :=
  { backends := [], active := none, context := none }

/-- `gfx_backend_register`.  The argument is `none` for a `NULL` backend
pointer.  Returns the C return value together with the updated registry. -/
def gfx_backend_register (reg : GfxRegistry) (backend : Option GfxBackend) :
    Int × GfxRegistry :=
  match backend with
  | none => (-1, reg)
  | some b =>
    if MAX_BACKENDS ≤ reg.backends.length then
      (-1, reg)
    else if b.init.isNone ∨ b.quit = false ∨ b.present = false then
      (-1, reg)
    else
      (0, { reg with backends := reg.backends ++ [b] })

/-- The by-name scan at the top of `gfx_backend_init`: in registration
order, `strcmp(backends[i]->name, name)` against each backend.  A backend
whose `name` pointer is `NULL` makes that `strcmp` undefined behaviour (the
C performs no `NULL` check), modelled as `none` (crash); `some found` is a
completed scan with its result. -/
def gfx_backend_lookup : List GfxBackend → String → Option (Option GfxBackend)
  | [], _ => some none
  | b :: rest, n =>
    match b.name with
    | none => none
    | some bn => if bn = n then some (some b) else gfx_backend_lookup rest n

/-- The remainder of `gfx_backend_init` after the name lookup: fall back to
the first registered backend when nothing was found, fail when none are
registered, call the chosen backend's `init`, and on success store the
(backend, context) pair as active.  A registered backend always has a
non-`NULL` `init` (enforced by registration); a `none` `init` is mapped to
failure. -/
def gfx_backend_init_default (reg : GfxRegistry) (found : Option GfxBackend)
    (width height : Int) (format : GfxPixelFormat) :
    Option GfxContext × GfxRegistry :=
  match (match found with | some b => some b | none => reg.backends.head?) with
  | none => (none, reg)
  | some b =>
    match b.init with
    | none => (none, reg)
    | some initFn =>
      match initFn width height format with
      | none => (none, reg)
      | some ctx => (some ctx, { reg with active := some b, context := some ctx })

/-- `gfx_backend_init`.  The outer `Option` models termination of the call:
`none` when the by-name scan hits a `NULL` backend name (undefined
behaviour — the call crashes rather than returning), `some result`
otherwise. -/
def gfx_backend_init (reg : GfxRegistry) (name : Option String)
    (width height : Int) (format : GfxPixelFormat) :
    Option (Option GfxContext × GfxRegistry) :=
  match name with
  | none => some (gfx_backend_init_default reg none width height format)
  | some n =>
    match gfx_backend_lookup reg.backends n with
    | none => none
    | some found => some (gfx_backend_init_default reg found width height format)

/-! ## Direct-framebuffer backend (`gfx_backend_fbdev.c`) -/

/-- The fields of `struct fb_var_screeninfo` the backend reads. -/
structure FbVarScreeninfo where
  xres : Nat
  yres : Nat
  yres_virtual : Nat
  bits_per_pixel : Nat
  red_offset : Nat
deriving Repr

/-- `detect_format`. -/
def detect_format (vinfo : FbVarScreeninfo) : GfxPixelFormat :=
  if vinfo.bits_per_pixel = 16 then
    if vinfo.red_offset = 11 then GfxPixelFormat.RGB565
    else GfxPixelFormat.BGR565
  else if vinfo.bits_per_pixel = 32 then GfxPixelFormat.XRGB8888
  else GfxPixelFormat.RGB565

/-- `fbdev_context_t`: the fields the modelled operations touch.  The file
descriptor, the mapped framebuffer pointers and the scratch scaling buffer
are owned by the OS/heap and carry no modelled state. -/
structure FbdevContext where
  width : Nat
  height : Nat
  bytes_per_pixel : Nat
  format : GfxPixelFormat
  num_buffers : Nat
  current_buffer : Nat
  scaling_mode : GfxScalingMode
  vsync_enabled : Bool
deriving Repr

/-- The success path of `fbdev_init` as a function of the geometry the
kernel reports.  The failure paths (`open`, the two `ioctl`s, `mmap`,
`malloc`) return `NULL` without producing a context and are outside the
model, which describes successfully initialised contexts. -/
def fbdev_init (vinfo : FbVarScreeninfo) : FbdevContext :=
  { width := vinfo.xres
    height := vinfo.yres
    bytes_per_pixel := vinfo.bits_per_pixel / 8
    format := detect_format vinfo
    num_buffers :=
      if vinfo.yres * 3 ≤ vinfo.yres_virtual then 3
      else if vinfo.yres * 2 ≤ vinfo.yres_virtual then 2
      else 1
    current_buffer := 0
    scaling_mode := GfxScalingMode.ASPECT
    vsync_enabled := true }

/-- `fbdev_flip_buffer`: with one buffer only waits for vsync (no state
change); otherwise advances the current buffer modulo the buffer count and
pans the display. -/
def fbdev_flip_buffer (ctx : FbdevContext) : FbdevContext :=
  if ctx.num_buffers ≤ 1 then
    ctx
  else
    { ctx with current_buffer := (ctx.current_buffer + 1) % ctx.num_buffers }

/-- The context-state effect of one backend call on an fbdev context:
`fbdev_present` and `fbdev_clear` both end in one `fbdev_flip_buffer`
(their pixel writes do not touch the modelled fields), and the setters
update their field. -/
inductive FbdevOp
  | present
  | clear
  | flip
  | setScaling (mode : GfxScalingMode)
  | setVsync (enabled : Bool)
deriving Repr

/-- Apply one fbdev operation. -/
def fbdev_run (ctx : FbdevContext) : FbdevOp → FbdevContext
  | .present => fbdev_flip_buffer ctx
  | .clear => fbdev_flip_buffer ctx
  | .flip => fbdev_flip_buffer ctx
  | .setScaling mode => { ctx with scaling_mode := mode }
  | .setVsync enabled => { ctx with vsync_enabled := enabled }

/-- Apply a list of fbdev operations from left to right. -/
def fbdev_runOps (ctx : FbdevContext) (ops : List FbdevOp) : FbdevContext :=
  ops.foldl fbdev_run ctx

/-! ### Destination-rectangle computation (`calculate_dst_rect`)

The C code computes the aspect ratios in IEEE-754 single precision
(`float`).  A binary32 value is represented here by the exact rational it
denotes, and every C `float` operation is the exact rational operation
followed by `f32`, correct rounding to a 24-bit significand
(round-to-nearest, ties to even).  The exponent is unbounded: this agrees
with binary32 wherever no overflow or underflow occurs, which covers all
positive `int` dimensions (ratios of positive 31-bit integers lie far
inside the normal range). -/

/-- Fuel-driven floor-log2 (the fuel argument comes first and bounds the
recursion depth; `n` itself is always enough fuel). -/
def log2Aux : Nat → Nat → Nat
  | 0, _ => 0
  | fuel + 1, n => if 2 ≤ n then log2Aux fuel (n / 2) + 1 else 0

/-- `⌊log₂ n⌋` for `n ≥ 1` (0 at 0), by structural recursion so that the
kernel can evaluate it. -/
def natLog2 (n : Nat) : Nat := log2Aux n n

/-- Decides `2 ^ e ≤ a / b` for positive naturals `a`, `b` and an integer
exponent `e`. -/
def ratPow2Le (a b : Nat) (e : Int) : Bool :=
  if 0 ≤ e then decide (b * 2 ^ e.toNat ≤ a) else decide (b ≤ a * 2 ^ (-e).toNat)

/-- `⌊log₂ (a / b)⌋` for positive naturals `a`, `b`: the candidate
`⌊log₂ a⌋ - ⌊log₂ b⌋` overshoots by at most one, which the exact
comparison corrects. -/
def ratFloorLog2 (a b : Nat) : Int :=
  let c : Int := (natLog2 a : Int) - (natLog2 b : Int)
  if ratPow2Le a b c then c else c - 1

/-- Round the positive rational `a / b` to a 24-bit significand
(round-to-nearest, ties to even), returning the exact rational value of the
resulting binary32 number. -/
def roundPosSig (a b : Nat) : ℚ :=
  let e : Int := ratFloorLog2 a b
  let shift : Int := 23 - e
  let A : Nat := if 0 ≤ shift then a * 2 ^ shift.toNat else a
  let B : Nat := if 0 ≤ shift then b else b * 2 ^ (-shift).toNat
  let n0 : Nat := A / B
  let r2 : Nat := 2 * (A % B)
  let n : Nat :=
    if r2 < B then n0
    else if B < r2 then n0 + 1
    else if n0 % 2 = 0 then n0 else n0 + 1
  if 0 ≤ shift then Rat.divInt (n : Int) ((2 ^ shift.toNat : Nat) : Int)
  else Rat.divInt ((n * 2 ^ (-shift).toNat : Nat) : Int) 1

/-- Correct rounding of an exact rational to binary32 (unbounded
exponent): the identity on 0, `roundPosSig` on either sign. -/
def f32 (q : ℚ) : ℚ :=
  if q = 0 then 0
  else if 0 < q then roundPosSig q.num.toNat q.den
  else - roundPosSig (-q.num).toNat q.den

/-- C `(float)` conversion of an `int` (rounds once the value needs more
than 24 bits). -/
def f32_of_int (a : Int) : ℚ := f32 (Rat.divInt a 1)

/-- C `float` division of two binary32 values: exact rational quotient,
then one rounding. -/
def f32_div (x y : ℚ) : ℚ :=
  f32 (Rat.divInt (x.num * (y.den : Int)) ((x.den : Int) * y.num))

/-- C `float` multiplication of two binary32 values: exact rational
product, then one rounding. -/
def f32_mul (x y : ℚ) : ℚ :=
  f32 (Rat.divInt (x.num * y.num) ((x.den : Int) * (y.den : Int)))

/-- C `(int)` truncation toward zero of a binary32 value (given as the
exact rational it denotes). -/
def c_trunc (q : ℚ) : Int := Int.tdiv q.num q.den

/-- A destination rectangle (`SDL_Rect`-style x, y, w, h). -/
structure DstRect where
  x : Int
  y : Int
  w : Int
  h : Int
deriving DecidableEq, Repr

/-- `calculate_dst_rect` from `gfx_backend_fbdev.c`, as a function of the
scaling mode, the display geometry stored in the context, and the source
frame dimensions.  All C `int` divisions are truncation toward zero
(`Int.tdiv`); the `float` expressions of the ASPECT branch —
`(float)src_width / src_height`, `(float)ctx->width / ctx->height`,
`ctx->width / src_aspect`, `ctx->height * src_aspect` — are evaluated in
exact binary32 arithmetic (`f32_of_int`/`f32_div`/`f32_mul`), one rounding
per C operation, and `(int)` casts are `c_trunc`. -/
def calculate_dst_rect (mode : GfxScalingMode) (dispW dispH srcW srcH : Int) :
    DstRect :=
  match mode with
  | GfxScalingMode.FULLSCREEN =>
    { x := 0, y := 0, w := dispW, h := dispH }
  | GfxScalingMode.ASPECT =>
    let src_aspect : ℚ := f32_div (f32_of_int srcW) (f32_of_int srcH)
    let dst_aspect : ℚ := f32_div (f32_of_int dispW) (f32_of_int dispH)
    if dst_aspect < src_aspect then
      let w := dispW
      let h := c_trunc (f32_div (f32_of_int dispW) src_aspect)
      { x := 0, y := Int.tdiv (dispH - h) 2, w := w, h := h }
    else
      let h := dispH
      let w := c_trunc (f32_mul (f32_of_int dispH) src_aspect)
      { x := Int.tdiv (dispW - w) 2, y := 0, w := w, h := h }
  | GfxScalingMode.INTEGER =>
    let scale_x := Int.tdiv dispW srcW
    let scale_y := Int.tdiv dispH srcH
    let scale0 := if scale_x < scale_y then scale_x else scale_y
    let scale := if scale0 < 1 then 1 else scale0
    let w := srcW * scale
    let h := srcH * scale
    { x := Int.tdiv (dispW - w) 2, y := Int.tdiv (dispH - h) 2, w := w, h := h }
  | _ =>
    { x := Int.tdiv (dispW - srcW) 2, y := Int.tdiv (dispH - srcH) 2
      w := srcW, h := srcH }

/-- A queue value used only as the `Option.getD` fallback of successful
creations in concrete instantiations. -/
instance : Inhabited FrameQueue :=
  ⟨{ capacity := 0, width := 0, height := 0, pitch := 0
     format := FrameFormat.RGB565, frames := [], write_idx := 0, read_idx := 0
     shutdown := false, frames_queued := 0, frames_submitted := 0
     frames_dropped := 0, frames_rendered := 0, total_latency_us := 0
     start_time_us := 0 }⟩

/-- A concrete 1×1 RGB565 queue of capacity 2 created at time 0, used to
instantiate universally quantified theorems. -/
def sampleQueue : FrameQueue :=
  (frame_queue_create 1 1 FrameFormat.RGB565 2 0).getD default

/-- `sampleQueue` after one produced frame (acquire-write at time 1,
submit), so its read cursor points at a READY slot. -/
def sampleReadyQueue : FrameQueue :=
  runOps sampleQueue [QueueOp.acquireWrite 1, QueueOp.submit 0]

/-! ### Sample backends and registries for concrete instantiations -/

/-- A backend with all three mandatory operations but a `NULL` name. -/
def namelessBackend : GfxBackend :=
  { name := none, capabilities := 0, init := some fun _ _ _ => some 1
    quit := true, present := true, set_scaling := false, set_vsync := false
    supports_vsync := false, clear := false, get_framebuffer := false
    set_rotation := false }

/-- A complete backend named `fbdev` whose `init` succeeds with context 7. -/
def sampleBackend : GfxBackend :=
  { name := some "fbdev", capabilities := 2, init := some fun _ _ _ => some 7
    quit := true, present := true, set_scaling := true, set_vsync := true
    supports_vsync := true, clear := true, get_framebuffer := true
    set_rotation := false }

/-- A complete backend whose `init` always fails (returns `NULL`). -/
def failingBackend : GfxBackend :=
  { name := some "bad", capabilities := 0, init := some fun _ _ _ => none
    quit := true, present := true, set_scaling := false, set_vsync := false
    supports_vsync := false, clear := false, get_framebuffer := false
    set_rotation := false }

/-- A registry holding only `sampleBackend`, nothing active. -/
def sampleRegistry : GfxRegistry :=
  { backends := [sampleBackend], active := none, context := none }

/-- A registry holding only `failingBackend`, nothing active. -/
def failingRegistry : GfxRegistry :=
  { backends := [failingBackend], active := none, context := none }

/-- State of a queue that, created with capacity `cap` and untouched by any
consumer, has completed `k` successful acquire-write/submit pairs: the
first `k` slots are READY, the rest FREE, the write cursor is at `k mod
cap`, nothing was dropped and shutdown was not signalled. -/
structure PairInv (cap k : Nat) (q : FrameQueue) : Prop where
  cap_eq : q.capacity = cap
  len_eq : q.frames.length = cap
  state_eq : ∀ j, j < cap → (q.frames.getD j default).state =
    (if j < k then FrameState.READY else FrameState.FREE)
  widx : q.write_idx = k % cap
  shut : q.shutdown = false
  dropped : q.frames_dropped = 0

/-- The statistics invariant tying a queue to the ghost log of latencies
recorded since the last reset: the cumulative latency counter is the
(wrapping) sum of the logged values and the rendered counter their
(wrapping) count. -/
def StatsInv (q : FrameQueue) (log : List Nat) : Prop :=
  q.total_latency_us = log.sum % U64 ∧ q.frames_rendered = log.length % U64

/-! ## Helper lemmas -/

theorem getD_set_self {l : List FrameBuffer} {i : Nat} (h : i < l.length)
    (a d : FrameBuffer) : (l.set i a).getD i d = a := by
  simp [List.getD_eq_getElem?_getD, List.getElem?_set_self, h]

theorem getD_set_ne {l : List FrameBuffer} {i j : Nat} (h : i ≠ j)
    (a d : FrameBuffer) : (l.set i a).getD j d = l.getD j d := by
  simp [List.getD_eq_getElem?_getD, List.getElem?_set_ne, h]

theorem acquire_write_of_shutdown {q : FrameQueue} (h : q.shutdown = true)
    (now : Nat) : frame_queue_acquire_write q now = (FRAME_INVALID, q) := by
  simp [frame_queue_acquire_write, h]

theorem readCheck_of_shutdown {q : FrameQueue} (h : q.shutdown = true)
    (timeout_ms : Int) : readCheck timeout_ms q = some (some FRAME_INVALID, q) := by
  simp [readCheck, h]

theorem acquire_read_of_shutdown {q : FrameQueue} (h : q.shutdown = true)
    (timeout_ms : Int) (waits : List WaitOutcome) :
    frame_queue_acquire_read q timeout_ms waits = (some FRAME_INVALID, q) := by
  cases waits <;>
    simp [frame_queue_acquire_read, frame_queue_acquire_read_aux,
      readCheck_of_shutdown h]

theorem submit_shutdown_field (q : FrameQueue) (handle : Int) :
    (frame_queue_submit q handle).shutdown = q.shutdown := by
  unfold frame_queue_submit
  split
  · rfl
  · simp only []
    split <;> rfl

theorem release_shutdown_field (q : FrameQueue) (handle : Int) (now : Nat) :
    (frame_queue_release q handle now).shutdown = q.shutdown := by
  unfold frame_queue_release
  split
  · rfl
  · simp only []
    split <;> rfl

theorem acquire_write_shutdown_field (q : FrameQueue) (now : Nat) :
    (frame_queue_acquire_write q now).2.shutdown = q.shutdown := by
  unfold frame_queue_acquire_write
  split
  · rfl
  · split <;> rfl

theorem readCheck_shutdown_field (timeout_ms : Int) (q : FrameQueue) :
    ∀ r, readCheck timeout_ms q = some r → r.2.shutdown = q.shutdown := by
  unfold readCheck
  intro r
  split
  · intro h
    cases h
    rfl
  · simp only []
    split
    · intro h
      cases h
      rfl
    · split
      · intro h
        cases h
      · intro h
        cases h
        rfl

theorem acquire_read_shutdown_field (q : FrameQueue) (timeout_ms : Int)
    (waits : List WaitOutcome) :
    (frame_queue_acquire_read q timeout_ms waits).2.shutdown = q.shutdown := by
  induction waits with
  | nil =>
    unfold frame_queue_acquire_read frame_queue_acquire_read_aux
    cases hrc : readCheck timeout_ms q with
    | none => simp [hrc]
    | some r => simpa [hrc] using readCheck_shutdown_field timeout_ms q r hrc
  | cons w rest ih =>
    unfold frame_queue_acquire_read frame_queue_acquire_read_aux
    cases hrc : readCheck timeout_ms q with
    | none =>
      simp only [Option.getD_none]
      split
      · cases w
        · simp
        · simpa [frame_queue_acquire_read] using ih
      · simpa [frame_queue_acquire_read] using ih
    | some r => simpa [hrc] using readCheck_shutdown_field timeout_ms q r hrc

theorem runOp_shutdown_field (q : FrameQueue) (op : QueueOp)
    (h : q.shutdown = true) : (runOp q op).shutdown = true := by
  cases op with
  | acquireWrite now => rw [runOp, acquire_write_shutdown_field]; exact h
  | submit handle => rw [runOp, submit_shutdown_field]; exact h
  | acquireRead timeout_ms waits => rw [runOp, acquire_read_shutdown_field]; exact h
  | release handle now => rw [runOp, release_shutdown_field]; exact h
  | shutdownOp => rfl
  | resetStats now => exact h

theorem runOps_shutdown_field (ops : List QueueOp) :
    ∀ q : FrameQueue, q.shutdown = true → (runOps q ops).shutdown = true := by
  induction ops with
  | nil => intro q h; exact h
  | cons op rest ih =>
    intro q h
    exact ih (runOp q op) (runOp_shutdown_field q op h)

theorem readCheck_of_ready {q : FrameQueue} (hs : q.shutdown = false)
    (hr : (q.frames.getD q.read_idx default).state = FrameState.READY)
    (timeout_ms : Int) :
    readCheck timeout_ms q =
      some (some (q.read_idx : Int),
        { q with
            frames := q.frames.set q.read_idx
              ⟨FrameState.RENDERING, (q.frames.getD q.read_idx default).timestamp_us⟩
            frames_queued := q.frames_queued - 1 }) := by
  simp only [List.getD_eq_getElem?_getD] at hr
  simp [readCheck, hs, hr]

theorem readCheck_of_wait {q : FrameQueue} (hs : q.shutdown = false)
    (hr : (q.frames.getD q.read_idx default).state ≠ FrameState.READY)
    {timeout_ms : Int} (ht : timeout_ms > 0 ∨ timeout_ms < 0) :
    readCheck timeout_ms q = none := by
  simp only [List.getD_eq_getElem?_getD] at hr
  simp [readCheck, hs, hr, ht]

theorem readCheck_of_poll {q : FrameQueue} (hs : q.shutdown = false)
    (hr : (q.frames.getD q.read_idx default).state ≠ FrameState.READY) :
    readCheck 0 q = some (some FRAME_INVALID, q) := by
  simp only [List.getD_eq_getElem?_getD] at hr
  simp [readCheck, hs, hr]

theorem acquire_read_of_ready {q : FrameQueue} (hs : q.shutdown = false)
    (hr : (q.frames.getD q.read_idx default).state = FrameState.READY)
    (timeout_ms : Int) (waits : List WaitOutcome) :
    frame_queue_acquire_read q timeout_ms waits =
      (some (q.read_idx : Int),
        { q with
            frames := q.frames.set q.read_idx
              ⟨FrameState.RENDERING, (q.frames.getD q.read_idx default).timestamp_us⟩
            frames_queued := q.frames_queued - 1 }) := by
  cases waits <;>
    simp [frame_queue_acquire_read, frame_queue_acquire_read_aux,
      readCheck_of_ready hs hr]

theorem acquire_read_of_poll {q : FrameQueue} (hs : q.shutdown = false)
    (hr : (q.frames.getD q.read_idx default).state ≠ FrameState.READY)
    (waits : List WaitOutcome) :
    frame_queue_acquire_read q 0 waits = (some FRAME_INVALID, q) := by
  cases waits <;>
    simp [frame_queue_acquire_read, frame_queue_acquire_read_aux,
      readCheck_of_poll hs hr]

theorem acquire_read_of_timed {q : FrameQueue} (hs : q.shutdown = false)
    (hr : (q.frames.getD q.read_idx default).state ≠ FrameState.READY)
    {timeout_ms : Int} (ht : 0 < timeout_ms) (n : Nat) :
    frame_queue_acquire_read q timeout_ms
        (List.replicate n WaitOutcome.wokeUp ++ [WaitOutcome.timedOut]) =
      (some FRAME_INVALID, q) := by
  induction n with
  | zero =>
    simp [frame_queue_acquire_read, frame_queue_acquire_read_aux,
      readCheck_of_wait hs hr (Or.inl ht), ht]
  | succ n ih =>
    simp only [frame_queue_acquire_read, List.replicate_succ, List.cons_append,
      frame_queue_acquire_read_aux, readCheck_of_wait hs hr (Or.inl ht),
      Option.getD_none, if_pos ht] at ih ⊢
    exact ih

theorem acquire_read_of_infinite {q : FrameQueue} (hs : q.shutdown = false)
    (hr : (q.frames.getD q.read_idx default).state ≠ FrameState.READY)
    {timeout_ms : Int} (ht : timeout_ms < 0) (waits : List WaitOutcome) :
    frame_queue_acquire_read q timeout_ms waits = (none, q) := by
  induction waits with
  | nil =>
    simp [frame_queue_acquire_read, frame_queue_acquire_read_aux,
      readCheck_of_wait hs hr (Or.inr ht)]
  | cons w rest ih =>
    simp only [frame_queue_acquire_read, frame_queue_acquire_read_aux,
      readCheck_of_wait hs hr (Or.inr ht), Option.getD_none,
      if_neg (by omega : ¬ (0 : Int) < timeout_ms)] at ih ⊢
    exact ih

/-! ## Claims -/

/-- **C10.** When the queue's shutdown flag is set,
`frame_queue_acquire_write` returns `FRAME_INVALID` immediately, leaving the
whole queue — in particular the `frames_dropped` counter and every slot's
state — unchanged: a write-acquire refused because of shutdown is not
counted as a dropped frame. -/
theorem acquire_write_shutdown_no_drop (q : FrameQueue) (now : Nat)
    (h : q.shutdown = true) :
    frame_queue_acquire_write q now = (FRAME_INVALID, q) :=
  acquire_write_of_shutdown h now

/-- Witness for `acquire_write_shutdown_no_drop` at a concrete shut-down
queue. -/
theorem acquire_write_shutdown_no_drop_witness :
    frame_queue_acquire_write (frame_queue_shutdown sampleQueue) 3 =
      (FRAME_INVALID, frame_queue_shutdown sampleQueue) :=
  acquire_write_shutdown_no_drop (frame_queue_shutdown sampleQueue) 3 rfl

/-- **C5.** `frame_queue_submit` on a token whose slot is not WRITING, and
`frame_queue_release` on a token whose slot is not RENDERING, are no-ops:
the queue (slots, cursors, counters) is returned unchanged and no error is
signalled (the C functions return `void`); the same holds for out-of-range
tokens. -/
theorem submit_release_noop (q : FrameQueue) (handle : Int) (now : Nat) :
    (handle < 0 ∨ (q.capacity : Int) ≤ handle ∨
        (q.frames.getD handle.toNat default).state ≠ FrameState.WRITING →
      frame_queue_submit q handle = q) ∧
    (handle < 0 ∨ (q.capacity : Int) ≤ handle ∨
        (q.frames.getD handle.toNat default).state ≠ FrameState.RENDERING →
      frame_queue_release q handle now = q) := by
  constructor
  · intro h
    unfold frame_queue_submit
    rcases h with h | h | h
    · rw [if_pos (Or.inl h)]
    · rw [if_pos (Or.inr h)]
    · split
      · rfl
      · simp only []
        rw [if_neg h]
  · intro h
    unfold frame_queue_release
    rcases h with h | h | h
    · rw [if_pos (Or.inl h)]
    · rw [if_pos (Or.inr h)]
    · split
      · rfl
      · simp only []
        rw [if_neg h]

/-- Witness for `submit_release_noop`: token 5 is out of range for the
capacity-2 `sampleQueue`, and token 0 of `sampleQueue` is FREE (neither
WRITING nor RENDERING). -/
theorem submit_release_noop_witness :
    frame_queue_submit sampleQueue 5 = sampleQueue ∧
    frame_queue_release sampleQueue 5 3 = sampleQueue ∧
    frame_queue_submit sampleQueue 0 = sampleQueue ∧
    frame_queue_release sampleQueue 0 3 = sampleQueue :=
  ⟨(submit_release_noop sampleQueue 5 3).1 (Or.inr (Or.inl (by decide))),
   (submit_release_noop sampleQueue 5 3).2 (Or.inr (Or.inl (by decide))),
   (submit_release_noop sampleQueue 0 3).1 (Or.inr (Or.inr (by decide))),
   (submit_release_noop sampleQueue 0 3).2 (Or.inr (Or.inr (by decide)))⟩

/-- **C8.** Once `frame_queue_shutdown` has run, every subsequent
`frame_queue_acquire_read` — after any further sequence of queue operations,
for every timeout mode and wait trace, whether or not READY frames exist —
returns the invalid token and leaves the queue unchanged; and
`frame_queue_shutdown` is idempotent. -/
theorem shutdown_sticky (q : FrameQueue) (ops : List QueueOp) (timeout_ms : Int)
    (waits : List WaitOutcome) :
    frame_queue_acquire_read (runOps (frame_queue_shutdown q) ops) timeout_ms waits
        = (some FRAME_INVALID, runOps (frame_queue_shutdown q) ops) ∧
    frame_queue_shutdown (frame_queue_shutdown q) = frame_queue_shutdown q := by
  constructor
  · exact acquire_read_of_shutdown
      (runOps_shutdown_field ops (frame_queue_shutdown q) rfl) timeout_ms waits
  · rfl

/-- **C4.** The three timeout modes of `frame_queue_acquire_read` (on a
queue no other thread mutates meanwhile): a READY slot at the read cursor is
returned (READY→RENDERING) in every mode; `timeout_ms = 0` never waits and
returns the invalid token immediately on an empty queue; `timeout_ms > 0`
returns the invalid token once the timed wait expires (after any number of
spurious wakeups); `timeout_ms < 0` waits indefinitely — for every wait
trace the call is still blocked (has not returned) while no frame is ready
and shutdown is not observed.  The real-time bound of the `>0` mode is
abstracted into the `timedOut` wait outcome. -/
theorem acquire_read_timeout_modes (q : FrameQueue) (timeout_ms : Int)
    (waits : List WaitOutcome) (n : Nat) :
    (q.shutdown = false →
      (q.frames.getD q.read_idx default).state = FrameState.READY →
      frame_queue_acquire_read q timeout_ms waits =
        (some (q.read_idx : Int),
          { q with
              frames := q.frames.set q.read_idx
                ⟨FrameState.RENDERING, (q.frames.getD q.read_idx default).timestamp_us⟩
              frames_queued := q.frames_queued - 1 })) ∧
    (q.shutdown = false →
      (q.frames.getD q.read_idx default).state ≠ FrameState.READY →
      frame_queue_acquire_read q 0 waits = (some FRAME_INVALID, q)) ∧
    (q.shutdown = false →
      (q.frames.getD q.read_idx default).state ≠ FrameState.READY →
      0 < timeout_ms →
      frame_queue_acquire_read q timeout_ms
          (List.replicate n WaitOutcome.wokeUp ++ [WaitOutcome.timedOut]) =
        (some FRAME_INVALID, q)) ∧
    (q.shutdown = false →
      (q.frames.getD q.read_idx default).state ≠ FrameState.READY →
      timeout_ms < 0 →
      frame_queue_acquire_read q timeout_ms waits = (none, q)) :=
  ⟨fun hs hr => acquire_read_of_ready hs hr timeout_ms waits,
   fun hs hr => acquire_read_of_poll hs hr waits,
   fun hs hr ht => acquire_read_of_timed hs hr ht n,
   fun hs hr ht => acquire_read_of_infinite hs hr ht waits⟩

/-- Witness for `acquire_read_timeout_modes`: the ready case on
`sampleReadyQueue`, and the three empty-queue modes on `sampleQueue`. -/
theorem acquire_read_timeout_modes_witness :
    frame_queue_acquire_read sampleReadyQueue 16 [] =
      (some 0,
        { sampleReadyQueue with
            frames := sampleReadyQueue.frames.set 0
              ⟨FrameState.RENDERING, (sampleReadyQueue.frames.getD 0 default).timestamp_us⟩
            frames_queued := sampleReadyQueue.frames_queued - 1 }) ∧
    frame_queue_acquire_read sampleQueue 0 [] = (some FRAME_INVALID, sampleQueue) ∧
    frame_queue_acquire_read sampleQueue 5 [WaitOutcome.timedOut] =
      (some FRAME_INVALID, sampleQueue) ∧
    frame_queue_acquire_read sampleQueue (-1) [WaitOutcome.wokeUp, WaitOutcome.wokeUp] =
      (none, sampleQueue) :=
  ⟨(acquire_read_timeout_modes sampleReadyQueue 16 [] 0).1 (by decide) (by decide),
   (acquire_read_timeout_modes sampleQueue 0 [] 0).2.1 (by decide) (by decide),
   (acquire_read_timeout_modes sampleQueue 5 [] 0).2.2.1 (by decide) (by decide)
     (by decide),
   (acquire_read_timeout_modes sampleQueue (-1)
       [WaitOutcome.wokeUp, WaitOutcome.wokeUp] 0).2.2.2 (by decide) (by decide)
     (by decide)⟩

/-- **C2** (counterexample).  The claim says every backend with a `NULL`
name but non-`NULL` `init`, `quit`, `present` is rejected; in the code
`gfx_backend_register` never examines `backend->name`, so registering such
a backend into an empty registry returns 0 (success) and appends it. -/
theorem register_nameless_backend_succeeds :
    (gfx_backend_register gfx_registry_empty (some namelessBackend)).1 = 0 ∧
    ¬ (gfx_backend_register gfx_registry_empty (some namelessBackend)).1 < 0 ∧
    (gfx_backend_register gfx_registry_empty (some namelessBackend)).2.backends.length = 1 := by
  refine ⟨rfl, by decide, rfl⟩

/-- **C2** (amended).  `gfx_backend_register` fails (returns negative) in
exactly these cases: the backend pointer is `NULL`, the registry already
holds `MAX_BACKENDS` backends, or one of the mandatory operations `init`,
`quit`, `present` is missing.  The backend's name is not checked: otherwise
the backend is appended and registration succeeds, `NULL` name or not. -/
theorem gfx_register_spec (reg : GfxRegistry) (b : GfxBackend) :
    ((gfx_backend_register reg (some b)).1 < 0 ↔
      MAX_BACKENDS ≤ reg.backends.length ∨ b.init = none ∨
        b.quit = false ∨ b.present = false) ∧
    (gfx_backend_register reg none).1 < 0 ∧
    (¬ (MAX_BACKENDS ≤ reg.backends.length ∨ b.init = none ∨
          b.quit = false ∨ b.present = false) →
      gfx_backend_register reg (some b) =
        (0, { reg with backends := reg.backends ++ [b] })) := by
  have hiff : (b.init.isNone = true ∨ b.quit = false ∨ b.present = false) ↔
      (b.init = none ∨ b.quit = false ∨ b.present = false) := by
    simp [Option.isNone_iff_eq_none]
  refine ⟨?_, ?_, ?_⟩
  · by_cases h1 : MAX_BACKENDS ≤ reg.backends.length
    · simp [gfx_backend_register, h1]
    · by_cases h2 : b.init.isNone = true ∨ b.quit = false ∨ b.present = false
      · rw [show gfx_backend_register reg (some b) = (-1, reg) by
            simp only [gfx_backend_register, if_neg h1, if_pos h2]]
        exact ⟨fun _ => Or.inr (hiff.mp h2), fun _ => show (-1 : Int) < 0 by decide⟩
      · rw [show gfx_backend_register reg (some b) =
              (0, { reg with backends := reg.backends ++ [b] }) by
            simp only [gfx_backend_register, if_neg h1, if_neg h2]]
        constructor
        · intro hc
          exact absurd (show (0 : Int) < 0 from hc) (by decide)
        · intro hc
          rcases hc with hc | hc
          · exact absurd hc h1
          · exact absurd hc (fun hx => h2 (hiff.mpr hx))
  · exact (by decide : ((-1 : Int) < 0))
  · intro h
    have h1 : ¬ MAX_BACKENDS ≤ reg.backends.length := fun hc => h (Or.inl hc)
    have h2 : ¬ (b.init.isNone = true ∨ b.quit = false ∨ b.present = false) :=
      fun hc => h (Or.inr (hiff.mp hc))
    simp only [gfx_backend_register, if_neg h1, if_neg h2]

/-- Witness for `gfx_register_spec` at the one-entry `sampleRegistry` and
the complete backend `failingBackend` (whose registration succeeds). -/
theorem gfx_register_spec_witness :
    gfx_backend_register sampleRegistry (some failingBackend) =
      (0, { sampleRegistry with
              backends := sampleRegistry.backends ++ [failingBackend] }) ∧
    (gfx_backend_register sampleRegistry none).1 < 0 :=
  ⟨(gfx_register_spec sampleRegistry failingBackend).2.2
      (by simp [sampleRegistry, failingBackend, MAX_BACKENDS]),
   (gfx_register_spec sampleRegistry failingBackend).2.1⟩

/-- **C7** (counterexample).  The claim says a name matching no registered
backend falls back to the first-registered backend.  A backend with a
`NULL` name registers successfully (the registry state is reachable), the
name matches no backend, yet the by-name scan runs
`strcmp(backends[i]->name, name)` on the `NULL` name with no check: the
call crashes (undefined behaviour, modelled `none`) instead of taking the
fallback path the default lookup takes. -/
theorem gfx_activate_nameless_crash :
    (gfx_backend_register gfx_registry_empty (some namelessBackend)).1 = 0 ∧
    gfx_backend_init
        (gfx_backend_register gfx_registry_empty (some namelessBackend)).2
        (some "missing") 640 480 GfxPixelFormat.RGB565 = none ∧
    gfx_backend_init
        (gfx_backend_register gfx_registry_empty (some namelessBackend)).2
        none 640 480 GfxPixelFormat.RGB565 ≠ none :=
  ⟨rfl, rfl, fun h => Option.noConfusion h⟩

/-- **C7** (amended).  `gfx_backend_init` (Activate): a name matching no
registered backend falls back to the default path (the first-registered
backend) provided every registered backend has a non-`NULL` name differing
from the requested one — if the scan reaches a `NULL` backend name the call
crashes instead (see `gfx_activate_nameless_crash`); with zero registered
backends it fails returning no context; when the chosen backend's `init`
fails it returns no context and the registry — in particular its `active`
backend, `none` at startup — is unchanged; on success it stores the
(backend, context) pair as active and returns the context. -/
theorem gfx_activate_spec (reg : GfxRegistry) (n : String)
    (width height : Int) (format : GfxPixelFormat) :
    ((∀ b ∈ reg.backends, ∃ bn, b.name = some bn ∧ bn ≠ n) →
      gfx_backend_init reg (some n) width height format =
        gfx_backend_init reg none width height format) ∧
    (reg.backends = [] →
      ∀ nm, gfx_backend_init reg nm width height format = some (none, reg)) ∧
    (∀ b rest f, reg.backends = b :: rest → b.init = some f →
      f width height format = none →
      gfx_backend_init reg none width height format = some (none, reg)) ∧
    (∀ b rest f ctx, reg.backends = b :: rest → b.init = some f →
      f width height format = some ctx →
      gfx_backend_init reg none width height format =
        some (some ctx, { reg with active := some b, context := some ctx })) := by
  refine ⟨?_, ?_, ?_, ?_⟩
  · intro h
    have hlook : ∀ l : List GfxBackend,
        (∀ b ∈ l, ∃ bn, b.name = some bn ∧ bn ≠ n) →
        gfx_backend_lookup l n = some none := by
      intro l
      induction l with
      | nil => intro _; rfl
      | cons b rest ih =>
        intro hl
        obtain ⟨bn, hbn, hne⟩ := hl b (List.mem_cons_self b rest)
        simp only [gfx_backend_lookup, hbn, if_neg hne]
        exact ih (fun x hx => hl x (List.mem_cons_of_mem b hx))
    simp [gfx_backend_init, hlook reg.backends h]
  · intro hempty nm
    cases nm <;>
      simp [gfx_backend_init, gfx_backend_init_default, gfx_backend_lookup, hempty]
  · intro b rest f hlist hinit hf
    simp [gfx_backend_init, gfx_backend_init_default, hlist, hinit, hf]
  · intro b rest f ctx hlist hinit hf
    simp [gfx_backend_init, gfx_backend_init_default, hlist, hinit, hf]

/-- Witness for `gfx_activate_spec`: fallback for the unknown name
`missing` on `sampleRegistry` (whose one backend is named `fbdev`), failure
on the empty registry, failed `init` on `failingRegistry`, and success on
`sampleRegistry`. -/
theorem gfx_activate_spec_witness :
    gfx_backend_init sampleRegistry (some "missing") 640 480 GfxPixelFormat.RGB565 =
      gfx_backend_init sampleRegistry none 640 480 GfxPixelFormat.RGB565 ∧
    gfx_backend_init gfx_registry_empty none 640 480 GfxPixelFormat.RGB565 =
      some (none, gfx_registry_empty) ∧
    gfx_backend_init failingRegistry none 640 480 GfxPixelFormat.RGB565 =
      some (none, failingRegistry) ∧
    gfx_backend_init sampleRegistry none 640 480 GfxPixelFormat.RGB565 =
      some (some 7, { sampleRegistry with
                        active := some sampleBackend, context := some 7 }) :=
  ⟨(gfx_activate_spec sampleRegistry "missing" 640 480 GfxPixelFormat.RGB565).1
      (by
        intro b hb
        rw [show sampleRegistry.backends = [sampleBackend] from rfl,
          List.mem_singleton] at hb
        subst hb
        exact ⟨"fbdev", rfl, by decide⟩),
   (gfx_activate_spec gfx_registry_empty "missing" 640 480 GfxPixelFormat.RGB565).2.1
      rfl none,
   (gfx_activate_spec failingRegistry "missing" 640 480 GfxPixelFormat.RGB565).2.2.1
      failingBackend [] _ rfl rfl rfl,
   (gfx_activate_spec sampleRegistry "missing" 640 480 GfxPixelFormat.RGB565).2.2.2
      sampleBackend [] _ 7 rfl rfl rfl⟩

/-! ### Direct-framebuffer buffer-index invariant -/

theorem fbdev_init_index_lt (vinfo : FbVarScreeninfo) :
    (fbdev_init vinfo).current_buffer < (fbdev_init vinfo).num_buffers := by
  unfold fbdev_init
  dsimp only []
  split
  · decide
  · split
    · decide
    · decide

theorem fbdev_run_index_lt (ctx : FbdevContext) (op : FbdevOp)
    (h : ctx.current_buffer < ctx.num_buffers) :
    (fbdev_run ctx op).current_buffer < (fbdev_run ctx op).num_buffers := by
  have hflip : (fbdev_flip_buffer ctx).current_buffer
      < (fbdev_flip_buffer ctx).num_buffers := by
    unfold fbdev_flip_buffer
    split
    · exact h
    · next hn =>
      exact Nat.mod_lt _ (by omega)
  cases op with
  | present => exact hflip
  | clear => exact hflip
  | flip => exact hflip
  | setScaling mode => exact h
  | setVsync enabled => exact h

theorem fbdev_runOps_index_lt (ops : List FbdevOp) :
    ∀ ctx : FbdevContext, ctx.current_buffer < ctx.num_buffers →
      (fbdev_runOps ctx ops).current_buffer < (fbdev_runOps ctx ops).num_buffers := by
  induction ops with
  | nil => intro ctx h; exact h
  | cons op rest ih =>
    intro ctx h
    exact ih (fbdev_run ctx op) (fbdev_run_index_lt ctx op h)

/-- **C9.** For every successfully initialised direct-framebuffer context
the current buffer index stays in `[0, num_buffers)` under every sequence
of present/clear/flip/setter operations: it is 0 after init, each flip with
more than one buffer advances it to `(current + 1) % num_buffers`, and a
flip with a single buffer leaves the context unchanged (index 0). -/
theorem fbdev_buffer_index_spec (vinfo : FbVarScreeninfo) (ops : List FbdevOp) :
    (fbdev_init vinfo).current_buffer = 0 ∧
    (fbdev_runOps (fbdev_init vinfo) ops).current_buffer
        < (fbdev_runOps (fbdev_init vinfo) ops).num_buffers ∧
    (∀ ctx : FbdevContext, 1 < ctx.num_buffers →
      (fbdev_flip_buffer ctx).current_buffer =
        (ctx.current_buffer + 1) % ctx.num_buffers) ∧
    (∀ ctx : FbdevContext, ctx.num_buffers ≤ 1 → fbdev_flip_buffer ctx = ctx) := by
  refine ⟨rfl, fbdev_runOps_index_lt ops _ (fbdev_init_index_lt vinfo), ?_, ?_⟩
  · intro ctx hn
    unfold fbdev_flip_buffer
    rw [if_neg (by omega)]
  · intro ctx hn
    unfold fbdev_flip_buffer
    rw [if_pos hn]

/-- Witness for `fbdev_buffer_index_spec`: a 640×480 triple-buffered
display, a concrete operation sequence, and concrete contexts for the two
flip conjuncts. -/
theorem fbdev_buffer_index_spec_witness :
    (fbdev_runOps (fbdev_init ⟨640, 480, 1440, 16, 11⟩)
        [FbdevOp.present, FbdevOp.clear, FbdevOp.flip, FbdevOp.flip]).current_buffer
      < (fbdev_runOps (fbdev_init ⟨640, 480, 1440, 16, 11⟩)
        [FbdevOp.present, FbdevOp.clear, FbdevOp.flip, FbdevOp.flip]).num_buffers ∧
    (fbdev_flip_buffer (fbdev_init ⟨640, 480, 1440, 16, 11⟩)).current_buffer =
      ((fbdev_init ⟨640, 480, 1440, 16, 11⟩).current_buffer + 1) %
        (fbdev_init ⟨640, 480, 1440, 16, 11⟩).num_buffers ∧
    fbdev_flip_buffer (fbdev_init ⟨640, 480, 480, 16, 11⟩) =
      fbdev_init ⟨640, 480, 480, 16, 11⟩ :=
  ⟨(fbdev_buffer_index_spec ⟨640, 480, 1440, 16, 11⟩
      [FbdevOp.present, FbdevOp.clear, FbdevOp.flip, FbdevOp.flip]).2.1,
   (fbdev_buffer_index_spec ⟨640, 480, 1440, 16, 11⟩ []).2.2.1
      (fbdev_init ⟨640, 480, 1440, 16, 11⟩) (by decide),
   (fbdev_buffer_index_spec ⟨640, 480, 480, 16, 11⟩ []).2.2.2
      (fbdev_init ⟨640, 480, 480, 16, 11⟩) (by decide)⟩

/-! ### Aspect-mode destination rectangle -/

/-- **C3** (counterexample).  The claim's general statement predicts
`w = ⌊display_height × source_aspect⌋` with exact arithmetic.  At the
in-domain input srcW=1, srcH=3, dispW=11184811, dispH=2^25 (source aspect
not greater than display aspect, exactly and in `float`), the C `float`
evaluation computes `src_aspect = 1.0f/3.0f = 11184811/2^25` and the
product `2^25 * src_aspect = 11184811` exactly, so the code yields
`w = 11184811`, while the exact floor is `⌊2^25/3⌋ = 11184810`. -/
theorem aspect_rect_float_counterexample :
    (0 : Int) < 11184811 ∧ (0 : Int) < 33554432 ∧ (0 : Int) < 1 ∧ (0 : Int) < 3 ∧
    Rat.divInt 1 3 ≤ Rat.divInt 11184811 33554432 ∧
    f32_div (f32_of_int 1) (f32_of_int 3) ≤
      f32_div (f32_of_int 11184811) (f32_of_int 33554432) ∧
    (calculate_dst_rect GfxScalingMode.ASPECT 11184811 33554432 1 3).w =
      11184811 ∧
    ⌊(33554432 : ℚ) * ((1 : ℚ) / (3 : ℚ))⌋ = 11184810 := by
  refine ⟨by decide, by decide, by decide, by decide, by decide, by decide,
    by decide, ?_⟩
  rw [show (33554432 : ℚ) * ((1 : ℚ) / (3 : ℚ)) = Rat.divInt 33554432 3 by
    rw [Rat.divInt_eq_div]; norm_num]
  rw [Rat.floor_def]
  decide

/-- **C3** (amended).  The aspect-scaling destination rectangle of the
direct-framebuffer backend: for a 160×144 source on a 640×480 display it is
exactly `x=53, y=0, w=533, h=480`; in general, whenever the
single-precision source aspect is not greater than the single-precision
display aspect the source is fit to the display height: `h` equals the
display height, `y = 0`, `w` is the C truncation of
`display_height × source_aspect` evaluated in single-precision `float`
arithmetic (which can differ by one from the exact floor, see
`aspect_rect_float_counterexample`), and the rectangle is horizontally
centred at `x = (display_width - w) / 2` with C integer division. -/
theorem aspect_dst_rect_spec :
    calculate_dst_rect GfxScalingMode.ASPECT 640 480 160 144 =
      { x := 53, y := 0, w := 533, h := 480 } ∧
    ∀ dispW dispH srcW srcH : Int,
      0 < dispW → 0 < dispH → 0 < srcW → 0 < srcH →
      f32_div (f32_of_int srcW) (f32_of_int srcH) ≤
        f32_div (f32_of_int dispW) (f32_of_int dispH) →
      calculate_dst_rect GfxScalingMode.ASPECT dispW dispH srcW srcH =
        { x := Int.tdiv
            (dispW - c_trunc (f32_mul (f32_of_int dispH)
              (f32_div (f32_of_int srcW) (f32_of_int srcH)))) 2
          y := 0
          w := c_trunc (f32_mul (f32_of_int dispH)
            (f32_div (f32_of_int srcW) (f32_of_int srcH)))
          h := dispH } := by
  constructor
  · decide
  · intro dispW dispH srcW srcH hdw hdh hsw hsh hle
    show (if f32_div (f32_of_int dispW) (f32_of_int dispH) <
            f32_div (f32_of_int srcW) (f32_of_int srcH) then _ else _) = _
    rw [if_neg (not_lt.mpr hle)]

/-- Witness for the general conjunct of `aspect_dst_rect_spec` at the
concrete 160×144 source and 640×480 display. -/
theorem aspect_dst_rect_spec_witness :
    calculate_dst_rect GfxScalingMode.ASPECT 640 480 160 144 =
      { x := Int.tdiv (640 - c_trunc (f32_mul (f32_of_int 480)
            (f32_div (f32_of_int 160) (f32_of_int 144)))) 2
        y := 0
        w := c_trunc (f32_mul (f32_of_int 480)
          (f32_div (f32_of_int 160) (f32_of_int 144)))
        h := 480 } :=
  aspect_dst_rect_spec.2 640 480 160 144 (by decide) (by decide) (by decide)
    (by decide) (by decide)

/-! ### Producer fills the queue: drop-on-full -/

theorem findFreeAux_head_free (frames : List FrameBuffer) (cap idx fuel : Nat)
    (hfuel : fuel ≠ 0)
    (hfree : (frames.getD (idx % cap) default).state = FrameState.FREE) :
    findFreeAux frames cap idx 0 fuel = some (idx % cap) := by
  cases fuel with
  | zero => exact absurd rfl hfuel
  | succ f =>
    unfold findFreeAux
    simp only [Nat.add_zero]
    rw [if_pos hfree]

theorem findFreeAux_all_busy (frames : List FrameBuffer) (cap : Nat)
    (hcap : 0 < cap)
    (hall : ∀ j, j < cap → (frames.getD j default).state ≠ FrameState.FREE)
    (idx : Nat) : ∀ fuel i, findFreeAux frames cap idx i fuel = none := by
  intro fuel
  induction fuel with
  | zero => intro i; rfl
  | succ f ih =>
    intro i
    unfold findFreeAux
    rw [if_neg (hall _ (Nat.mod_lt _ hcap))]
    exact ih (i + 1)

theorem acquire_write_step {cap k : Nat} {q : FrameQueue} (t : Nat)
    (inv : PairInv cap k q) (hk : k < cap) :
    frame_queue_acquire_write q t =
      ((k : Int),
        { q with frames :=
            q.frames.set k ⟨FrameState.WRITING, sub64 t q.start_time_us⟩ }) := by
  have hkmod : k % cap = k := Nat.mod_eq_of_lt hk
  have hwidx : q.write_idx = k := by rw [inv.widx, hkmod]
  have hfree : (q.frames.getD (q.write_idx % q.capacity) default).state =
      FrameState.FREE := by
    rw [inv.cap_eq, hwidx, hkmod]
    rw [inv.state_eq k hk, if_neg (lt_irrefl k)]
  have hfind : findFreeAux q.frames q.capacity q.write_idx 0 q.capacity =
      some k := by
    have hcapne : q.capacity ≠ 0 := by rw [inv.cap_eq]; omega
    have hres := findFreeAux_head_free q.frames q.capacity q.write_idx
      q.capacity hcapne hfree
    rw [show q.write_idx % q.capacity = k by rw [hwidx, inv.cap_eq, hkmod]] at hres
    exact hres
  unfold frame_queue_acquire_write
  rw [if_neg (by rw [inv.shut]; exact Bool.false_ne_true)]
  rw [hfind]

theorem pair_step {cap k : Nat} {q : FrameQueue} (t : Nat)
    (inv : PairInv cap k q) (hk : k < cap) :
    PairInv cap (k + 1) (pairStep q t) := by
  have hacq := acquire_write_step t inv hk
  have hlen1 : (q.frames.set k ⟨FrameState.WRITING, sub64 t q.start_time_us⟩).length
      = cap := by rw [List.length_set, inv.len_eq]
  unfold pairStep
  rw [hacq]
  dsimp only []
  unfold frame_queue_submit
  rw [if_neg (by
    push_neg
    constructor
    · exact Int.natCast_nonneg k
    · dsimp only []
      rw [inv.cap_eq]
      exact_mod_cast hk)]
  dsimp only []
  rw [show ((k : Int)).toNat = k from Int.toNat_natCast k]
  rw [getD_set_self (by rw [inv.len_eq]; exact hk) _ _]
  rw [if_pos rfl]
  refine ⟨?_, ?_, ?_, ?_, ?_, ?_⟩
  · exact inv.cap_eq
  · simpa [List.length_set] using inv.len_eq
  · intro j hj
    by_cases hjk : j = k
    · subst hjk
      rw [List.set_set, getD_set_self (by rw [inv.len_eq]; exact hk) _ _]
      rw [if_pos (by omega)]
    · rw [getD_set_ne (fun hc => hjk hc.symm) _ _,
        getD_set_ne (fun hc => hjk hc.symm) _ _]
      rw [inv.state_eq j hj]
      congr 1
      simp only [eq_iff_iff]
      omega
  · dsimp only []
    rw [inv.cap_eq]
  · exact inv.shut
  · exact inv.dropped

theorem runPairs_inv {cap : Nat} :
    ∀ (times : List Nat) (k : Nat) (q : FrameQueue), PairInv cap k q →
      k + times.length ≤ cap → PairInv cap (k + times.length) (runPairs q times) := by
  intro times
  induction times with
  | nil => intro k q inv _; simpa [runPairs] using inv
  | cons tm rest ih =>
    intro k q inv hle
    have hk : k < cap := by simp at hle; omega
    have step := pair_step tm inv hk
    have := ih (k + 1) (pairStep q tm) step (by simp at hle ⊢; omega)
    simpa [runPairs, List.foldl_cons, Nat.add_assoc, Nat.add_comm,
      Nat.add_left_comm] using this

theorem acquire_write_full {cap : Nat} {q : FrameQueue} (t : Nat)
    (inv : PairInv cap cap q) (hcap : 0 < cap) :
    frame_queue_acquire_write q t =
      (FRAME_INVALID, { q with frames_dropped := add64 q.frames_dropped 1 }) := by
  have hall : ∀ j, j < q.capacity →
      (q.frames.getD j default).state ≠ FrameState.FREE := by
    intro j hj
    rw [inv.cap_eq] at hj
    rw [inv.state_eq j hj, if_pos hj]
    exact fun hc => FrameState.noConfusion hc
  have hfind := findFreeAux_all_busy q.frames q.capacity
    (by rw [inv.cap_eq]; exact hcap) hall q.write_idx q.capacity 0
  unfold frame_queue_acquire_write
  rw [if_neg (by rw [inv.shut]; exact Bool.false_ne_true)]
  rw [hfind]

theorem create_pair_inv {width height : Int} {format : FrameFormat}
    {capacity : Int} {now : Nat} {q0 : FrameQueue}
    (hq : frame_queue_create width height format capacity now = some q0) :
    PairInv capacity.toNat 0 q0 ∧ 2 ≤ capacity.toNat := by
  unfold frame_queue_create at hq
  split at hq
  · exact absurd hq (by simp)
  · next hcond =>
    push_neg at hcond
    obtain ⟨-, -, hc2⟩ := hcond
    injection hq with hq
    subst hq
    refine ⟨⟨rfl, List.length_replicate _ _, ?_, rfl, rfl, rfl⟩, by omega⟩
    intro j hj
    rw [if_neg (Nat.not_lt_zero j)]
    simp only [List.getD_eq_getElem?_getD, List.getElem?_replicate, if_pos hj]
    rfl

/-- **C1.** A queue created with capacity `N ≥ 2` from which no consumer
acquires: each of the first `N` acquire-write calls (each followed by a
submit of its handle) succeeds, returning slot `k` at step `k`; after those
`N` pairs nothing has been dropped, and the `(N+1)`-th acquire-write
returns `FRAME_INVALID` with the dropped counter incremented from 0 to
exactly 1 and every slot (state and timestamp) unchanged. -/
theorem frame_queue_drop_on_full (width height : Int) (format : FrameFormat)
    (capacity : Int) (now0 : Nat) (times : List Nat) (t : Nat)
    (q0 : FrameQueue)
    (hq : frame_queue_create width height format capacity now0 = some q0)
    (hlen : times.length = capacity.toNat) :
    (∀ k, k < capacity.toNat →
      (frame_queue_acquire_write (runPairs q0 (times.take k))
          (times.getD k 0)).1 = (k : Int) ∧ (k : Int) ≠ FRAME_INVALID) ∧
    (runPairs q0 times).frames_dropped = 0 ∧
    frame_queue_acquire_write (runPairs q0 times) t =
      (FRAME_INVALID,
        { runPairs q0 times with frames_dropped := 1 }) ∧
    (frame_queue_acquire_write (runPairs q0 times) t).2.frames =
      (runPairs q0 times).frames := by
  obtain ⟨inv0, hcap2⟩ := create_pair_inv hq
  have invN : PairInv capacity.toNat capacity.toNat (runPairs q0 times) := by
    have := runPairs_inv times 0 q0 inv0 (by rw [hlen]; omega)
    rwa [hlen, Nat.zero_add] at this
  have hfull := acquire_write_full t invN (by omega)
  have hdropped1 : add64 (runPairs q0 times).frames_dropped 1 = 1 := by
    rw [invN.dropped]
    unfold add64 U64
    norm_num
  refine ⟨?_, invN.dropped, ?_, ?_⟩
  · intro k hk
    have hinvk : PairInv capacity.toNat k (runPairs q0 (times.take k)) := by
      have htk : (times.take k).length = k := by
        rw [List.length_take, hlen]
        omega
      have := runPairs_inv (times.take k) 0 q0 inv0 (by rw [htk]; omega)
      rwa [htk, Nat.zero_add] at this
    refine ⟨?_, ?_⟩
    · rw [acquire_write_step (times.getD k 0) hinvk hk]
    · intro hc
      have := Int.natCast_nonneg k
      rw [hc] at this
      exact absurd this (by decide)
  · rw [hfull, hdropped1]
  · rw [hfull, hdropped1]

/-- Witness for `frame_queue_drop_on_full` on the concrete capacity-2
`sampleQueue` with two produced frames. -/
theorem frame_queue_drop_on_full_witness :
    (frame_queue_acquire_write (runPairs sampleQueue (List.take 0 [5, 7]))
        (List.getD [5, 7] 0 0)).1 = ((0 : Nat) : Int) ∧
    (runPairs sampleQueue [5, 7]).frames_dropped = 0 ∧
    frame_queue_acquire_write (runPairs sampleQueue [5, 7]) 9 =
      (FRAME_INVALID, { runPairs sampleQueue [5, 7] with frames_dropped := 1 }) :=
  ⟨((frame_queue_drop_on_full 1 1 FrameFormat.RGB565 2 0 [5, 7] 9 sampleQueue
      rfl rfl).1 0 (by decide)).1,
   (frame_queue_drop_on_full 1 1 FrameFormat.RGB565 2 0 [5, 7] 9 sampleQueue
      rfl rfl).2.1,
   (frame_queue_drop_on_full 1 1 FrameFormat.RGB565 2 0 [5, 7] 9 sampleQueue
      rfl rfl).2.2.1⟩

/-! ### Average latency statistic -/

theorem add64_mod_left (a b : Nat) : add64 (a % U64) b = (a + b) % U64 := by
  unfold add64
  rw [Nat.mod_add_mod]

theorem acquire_write_stats_fields (q : FrameQueue) (now : Nat) :
    (frame_queue_acquire_write q now).2.total_latency_us = q.total_latency_us ∧
    (frame_queue_acquire_write q now).2.frames_rendered = q.frames_rendered := by
  unfold frame_queue_acquire_write
  split
  · exact ⟨rfl, rfl⟩
  · split <;> exact ⟨rfl, rfl⟩

theorem submit_stats_fields (q : FrameQueue) (handle : Int) :
    (frame_queue_submit q handle).total_latency_us = q.total_latency_us ∧
    (frame_queue_submit q handle).frames_rendered = q.frames_rendered := by
  unfold frame_queue_submit
  split
  · exact ⟨rfl, rfl⟩
  · simp only []
    split <;> exact ⟨rfl, rfl⟩

theorem readCheck_stats_fields (timeout_ms : Int) (q : FrameQueue) :
    ∀ r, readCheck timeout_ms q = some r →
      r.2.total_latency_us = q.total_latency_us ∧
      r.2.frames_rendered = q.frames_rendered := by
  unfold readCheck
  intro r
  split
  · intro h
    cases h
    exact ⟨rfl, rfl⟩
  · simp only []
    split
    · intro h
      cases h
      exact ⟨rfl, rfl⟩
    · split
      · intro h
        cases h
      · intro h
        cases h
        exact ⟨rfl, rfl⟩

theorem acquire_read_stats_fields (q : FrameQueue) (timeout_ms : Int)
    (waits : List WaitOutcome) :
    (frame_queue_acquire_read q timeout_ms waits).2.total_latency_us =
      q.total_latency_us ∧
    (frame_queue_acquire_read q timeout_ms waits).2.frames_rendered =
      q.frames_rendered := by
  induction waits with
  | nil =>
    unfold frame_queue_acquire_read frame_queue_acquire_read_aux
    cases hrc : readCheck timeout_ms q with
    | none => simp [hrc]
    | some r => simpa [hrc] using readCheck_stats_fields timeout_ms q r hrc
  | cons w rest ih =>
    unfold frame_queue_acquire_read frame_queue_acquire_read_aux
    cases hrc : readCheck timeout_ms q with
    | none =>
      simp only [Option.getD_none]
      split
      · cases w
        · exact ⟨rfl, rfl⟩
        · simpa [frame_queue_acquire_read] using ih
      · simpa [frame_queue_acquire_read] using ih
    | some r => simpa [hrc] using readCheck_stats_fields timeout_ms q r hrc

theorem release_stats_step (q : FrameQueue) (handle : Int) (now : Nat) :
    (releaseLatency q handle now = [] ∧ frame_queue_release q handle now = q) ∨
    (∃ lat, releaseLatency q handle now = [lat] ∧
      (frame_queue_release q handle now).total_latency_us =
        add64 q.total_latency_us lat ∧
      (frame_queue_release q handle now).frames_rendered =
        add64 q.frames_rendered 1) := by
  by_cases h1 : handle < 0 ∨ (q.capacity : Int) ≤ handle
  · left
    constructor
    · simp [releaseLatency, h1]
    · simp [frame_queue_release, h1]
  · by_cases h2 : (q.frames.getD handle.toNat default).state = FrameState.RENDERING
    · right
      refine ⟨sub64 (sub64 now q.start_time_us)
          (q.frames.getD handle.toNat default).timestamp_us, ?_, ?_, ?_⟩
      · simp only [releaseLatency, if_neg h1]
        rw [if_pos h2]
      · simp only [frame_queue_release, if_neg h1]
        rw [if_pos h2]
      · simp only [frame_queue_release, if_neg h1]
        rw [if_pos h2]
    · left
      constructor
      · simp only [releaseLatency, if_neg h1]
        rw [if_neg h2]
      · simp only [frame_queue_release, if_neg h1]
        rw [if_neg h2]

theorem runWithLog_stats :
    ∀ (ops : List QueueOp) (q : FrameQueue) (log : List Nat),
      StatsInv q log →
      StatsInv (runWithLog q log ops).1 (runWithLog q log ops).2 := by
  intro ops
  induction ops with
  | nil => intro q log h; simpa [runWithLog] using h
  | cons op rest ih =>
    intro q log h
    cases op with
    | acquireWrite now =>
      simp only [runWithLog]
      exact ih _ _ ⟨(acquire_write_stats_fields q now).1.trans h.1,
        (acquire_write_stats_fields q now).2.trans h.2⟩
    | submit handle =>
      simp only [runWithLog]
      exact ih _ _ ⟨(submit_stats_fields q handle).1.trans h.1,
        (submit_stats_fields q handle).2.trans h.2⟩
    | acquireRead timeout_ms waits =>
      simp only [runWithLog]
      exact ih _ _ ⟨(acquire_read_stats_fields q timeout_ms waits).1.trans h.1,
        (acquire_read_stats_fields q timeout_ms waits).2.trans h.2⟩
    | release handle now =>
      simp only [runWithLog]
      rcases release_stats_step q handle now with ⟨hemp, heq⟩ | ⟨lat, hl, ht, hr⟩
      · apply ih
        rw [show runOp q (QueueOp.release handle now) =
              frame_queue_release q handle now from rfl, heq, hemp,
          List.append_nil]
        exact h
      · apply ih
        rw [show runOp q (QueueOp.release handle now) =
              frame_queue_release q handle now from rfl, hl]
        constructor
        · rw [ht, h.1, add64_mod_left]
          simp [List.sum_append]
        · rw [hr, h.2, add64_mod_left]
          simp [List.length_append]
    | shutdownOp =>
      simp only [runWithLog]
      exact ih _ _ ⟨h.1, h.2⟩
    | resetStats now =>
      simp only [runWithLog]
      exact ih _ _ ⟨by simp [runOp, frame_queue_reset_stats],
        by simp [runOp, frame_queue_reset_stats]⟩

theorem runWithLog_fst :
    ∀ (ops : List QueueOp) (q : FrameQueue) (log : List Nat),
      (runWithLog q log ops).1 = runOps q ops := by
  intro ops
  induction ops with
  | nil => intro q log; rfl
  | cons op rest ih =>
    intro q log
    simp only [runWithLog]
    exact ih _ _

/-- **C6.** The average-latency statistic of `frame_queue_get_stats` equals
the cumulative latency divided by the rendered count (integer division,
`uint64_t` arithmetic), where the cumulative latency is the wrapping sum
over all effectively released frames since the last statistics reset of
(relative release time − the slot's acquire-write timestamp) — the ghost
log collected by `runWithLog` — and equals 0 when no frame has been
rendered.  The ghost log does not disturb execution: `runWithLog` computes
the same queue as `runOps`. -/
theorem avg_latency_spec (width height : Int) (format : FrameFormat)
    (capacity : Int) (now0 : Nat) (q0 : FrameQueue)
    (hq : frame_queue_create width height format capacity now0 = some q0)
    (ops : List QueueOp) :
    (runWithLog q0 [] ops).1 = runOps q0 ops ∧
    (frame_queue_get_stats (runWithLog q0 [] ops).1).avg_latency_us =
      (if (runWithLog q0 [] ops).2.length % U64 = 0 then 0
       else ((runWithLog q0 [] ops).2.sum % U64) /
         ((runWithLog q0 [] ops).2.length % U64)) := by
  have h0 : StatsInv q0 [] := by
    unfold frame_queue_create at hq
    split at hq
    · exact absurd hq (by simp)
    · injection hq with hq
      subst hq
      exact ⟨by simp, by simp⟩
  have hInv := runWithLog_stats ops q0 [] h0
  refine ⟨runWithLog_fst ops q0 [], ?_⟩
  simp only [frame_queue_get_stats]
  rw [hInv.1, hInv.2]
  by_cases hz : (runWithLog q0 [] ops).2.length % U64 = 0
  · simp [hz]
  · rw [if_pos (Nat.pos_of_ne_zero hz), if_neg hz]

/-- Witness for `avg_latency_spec`: one produced, consumed and released
frame on the concrete `sampleQueue` (acquire-write at relative time 1,
release at time 7, recorded latency 6). -/
theorem avg_latency_spec_witness :
    (runWithLog sampleQueue []
        [QueueOp.acquireWrite 1, QueueOp.submit 0, QueueOp.acquireRead 16 [],
          QueueOp.release 0 7]).1 =
      runOps sampleQueue
        [QueueOp.acquireWrite 1, QueueOp.submit 0, QueueOp.acquireRead 16 [],
          QueueOp.release 0 7] ∧
    (frame_queue_get_stats (runWithLog sampleQueue []
        [QueueOp.acquireWrite 1, QueueOp.submit 0, QueueOp.acquireRead 16 [],
          QueueOp.release 0 7]).1).avg_latency_us =
      (if (runWithLog sampleQueue []
            [QueueOp.acquireWrite 1, QueueOp.submit 0, QueueOp.acquireRead 16 [],
              QueueOp.release 0 7]).2.length % U64 = 0 then 0
       else ((runWithLog sampleQueue []
            [QueueOp.acquireWrite 1, QueueOp.submit 0, QueueOp.acquireRead 16 [],
              QueueOp.release 0 7]).2.sum % U64) /
         ((runWithLog sampleQueue []
            [QueueOp.acquireWrite 1, QueueOp.submit 0, QueueOp.acquireRead 16 [],
              QueueOp.release 0 7]).2.length % U64)) :=
  avg_latency_spec 1 1 FrameFormat.RGB565 2 0 sampleQueue rfl
    [QueueOp.acquireWrite 1, QueueOp.submit 0, QueueOp.acquireRead 16 [],
      QueueOp.release 0 7]

end MinUI
